import Mathlib

/-!
# Verification of the order-placement / credit-allocation core of `0xvjay/api`

Shallow embedding of the order subsystem:

* data model:   `src/api/user/models.py` (`Credit`, `ProductLimit`, `Transaction`),
                `src/api/order/models.py` (`Order`, `OrderLine`),
                `src/api/catalogue/models.py` (`Product`),
                `src/api/order/constant.py` (`OrderStatus`),
                `src/api/order/schemas.py` (`OrderCreateSchema`, `BaseLineSchema`,
                `ProductOutMinimalSchema` from `src/api/catalogue/schemas.py`);
* operations:   `src/api/order/service.py` (`CRUDOrder.get_user_project_credits`,
                `CRUDOrder.create`, dataclass `ProjectCredit`).

Conventions of the embedding:

* UUID values are modelled as `Nat`.
* `Decimal` money amounts are modelled as `ℚ` (the service uses exact decimal
  arithmetic; `ℚ` contains every decimal and the operations used — `+`, `-`, `*`,
  `min`, comparisons — agree on decimals).
* Python `int` (`quantity`) is modelled as `ℤ` (the pydantic schemas place no
  bound or sign restriction on it).
* The database visible to the order service is a record of lists of rows; the
  SQL result order of a `SELECT` is taken to be table order (the service imposes
  its own sort afterwards where order matters).
* `db_session.commit` / `db_session.rollback` are modelled by returning the new
  database state on success and the unchanged one on error (`createCommit`).
-/

/-- `src/api/catalogue/models.py` `Product`: catalogue row.  Only the fields the
order subsystem's claims mention are kept (`name`, `slug`, `rating`,
`is_discountable`, timestamps are never read by order placement). -/
structure Product where
  id : Nat
  price : ℚ
  is_active : Bool
deriving DecidableEq, Repr

/-- `src/api/user/models.py` `Project`: only its primary key is read by the
order service (the resolver joins `Credit.project_id == Project.id`). -/
structure Project where
  id : Nat
deriving DecidableEq, Repr

/-- `src/api/user/models.py` `Credit`: a user's credit grant in one project.
`id` is the row's own primary key (from `BaseTimeStamp`/`BaseUUID`), distinct
from `project_id`. -/
structure Credit where
  id : Nat
  user_id : Nat
  project_id : Nat
  amount : ℚ
deriving DecidableEq, Repr

/-- `src/api/user/models.py` `ProductLimit`: a per-(project, product) cap row. -/
structure ProductLimit where
  id : Nat
  project_id : Nat
  product_id : Nat
  amount : ℚ
  absolute_limit : Bool
deriving DecidableEq, Repr

/-- `src/api/user/models.py` `Transaction`: a funding transaction row.
`CRUDOrder.create` never sets `is_tax`, so it keeps its column default
`False`. -/
structure Transaction where
  credit_id : Nat
  order_id : Nat
  amount : ℚ
  is_tax : Bool := false
deriving DecidableEq, Repr

/-- `src/api/order/constant.py` `OrderStatus`. -/
inductive OrderStatus where
  | INIT
  | PENDING
  | CONFIRMED
  | PAID
  | PROCESSING
  | SHIPPED
  | DELIVERED
  | CANCELLED
  | REFUNDED
  | RETURNED
deriving DecidableEq, Repr

/-- `src/api/order/models.py` `Order` (fields written by `CRUDOrder.create`;
`shipping_incl_tax`/`shipping_excl_tax` keep their column default `0` and are
never touched by order placement). -/
structure Order where
  id : Nat
  user_id : Nat
  guest_email : Option String
  total_incl_tax : ℚ
  total_excl_tax : ℚ
  status : OrderStatus
deriving DecidableEq, Repr

/-- `src/api/order/models.py` `OrderLine` (fields written by
`CRUDOrder.create`). -/
structure OrderLine where
  order_id : Nat
  product_id : Nat
  quantity : ℤ
  line_price_incl_tax : ℚ
  line_price_excl_tax : ℚ
  line_price_before_discounts_incl_tax : ℚ
  line_price_before_discounts_excl_tax : ℚ
  unit_price_incl_tax : ℚ
  unit_price_excl_tax : ℚ
deriving DecidableEq, Repr

/-- `src/api/catalogue/schemas.py` `ProductOutMinimalSchema`: the product
object embedded in a checkout request line.  `price` and `is_active` are
client-supplied request fields (validated only for digit count, not provenance
or sign); presentation fields (`name`, `slug`, `rating`, `is_discountable`)
are never read by `CRUDOrder.create` and are omitted. -/
structure ProductOutMinimalSchema where
  id : Nat
  price : ℚ
  is_active : Bool
deriving DecidableEq, Repr

/-- `src/api/order/schemas.py` `BaseLineSchema`: one requested line. -/
structure BaseLineSchema where
  quantity : ℤ
  product : ProductOutMinimalSchema
deriving DecidableEq, Repr

/-- `src/api/order/schemas.py` `OrderCreateSchema`. -/
structure OrderCreateSchema where
  guest_email : Option String
  lines : List BaseLineSchema
deriving DecidableEq, Repr

/-- `src/api/order/service.py` dataclass `ProjectCredit`: one ranked credit
source as seen by the allocation loop.  `product_id = none` is Python
`product_id is None` (an unscoped source). -/
structure ProjectCredit where
  project_id : Nat
  available_amount : ℚ
  absolute_limit : Bool
  product_id : Option Nat
deriving DecidableEq, Repr

/-- The database state visible to `CRUDOrder.create`: the tables it reads
(`user_credit`, `user_project`, `user_product_limit`; `catalogue_product` is
present but — notably — never consulted) and the tables it writes
(`order_order`, `order_line`, `user_transaction`). -/
structure DB where
  products : List Product
  projects : List Project
  credits : List Credit
  product_limits : List ProductLimit
  orders : List Order
  order_lines : List OrderLine
  transactions : List Transaction
deriving DecidableEq, Repr

/-- The exceptions `CRUDOrder.create` can raise from its own logic
(`src/api/order/exceptions.py`): only `InsufficientCredit`. -/
inductive CreateError where
  | insufficientCredit
deriving DecidableEq, Repr

/-! ## Credit resolver: `CRUDOrder.get_user_project_credits` -/

/-- The ranking relation of the resolver's final
`sorted(project_credits, key=lambda x: (x.absolute_limit, x.available_amount), reverse=True)`:
`a` may precede `b` iff the key `(absolute_limit, available_amount)` of `b` is
lexicographically ≤ that of `a` (Bool: `false < true`). -/
def rankedBefore (a b : ProjectCredit) : Prop :=
  (b.absolute_limit = false ∧ a.absolute_limit = true) ∨
    (b.absolute_limit = a.absolute_limit ∧ b.available_amount ≤ a.available_amount)

instance : DecidableRel rankedBefore := fun a b => by
  unfold rankedBefore; infer_instance

instance : IsTotal ProjectCredit rankedBefore where
  total a b := by
    unfold rankedBefore
    rcases ha : a.absolute_limit <;> rcases hb : b.absolute_limit <;>
      rcases le_total b.available_amount a.available_amount with h | h <;> tauto

instance : IsTrans ProjectCredit rankedBefore where
  trans a b c hab hbc := by
    unfold rankedBefore at *
    rcases hab with ⟨h1, h2⟩ | ⟨h1, h2⟩ <;> rcases hbc with ⟨h3, h4⟩ | ⟨h3, h4⟩
    · exact Or.inl ⟨h3, h2⟩
    · exact Or.inl ⟨h3.trans h1, h2⟩
    · exact Or.inl ⟨h3, h1 ▸ h4⟩
    · exact Or.inr ⟨h3.trans h1, h4.trans h2⟩

/-- `CRUDOrder.get_user_project_credits`: the query
`SELECT Credit, ProductLimit FROM Credit JOIN Project ON Credit.project_id = Project.id
LEFT OUTER JOIN ProductLimit ON (ProductLimit.project_id = Project.id AND
ProductLimit.product_id IN product_ids) WHERE Credit.user_id = user_id`,
each result row mapped to a `ProjectCredit` (`available_amount` is always
`credit.amount`; a matched limit row contributes only its `absolute_limit` flag
and `product_id` — `ProductLimit.amount` is not read), then Python's stable
`sorted(..., key=(absolute_limit, available_amount), reverse=True)`, which any
stable sort by the same key reproduces exactly (`List.insertionSort` is
stable). -/
def get_user_project_credits (credits : List Credit) (projects : List Project)
    (product_limits : List ProductLimit) (user_id : Nat) (product_ids : List Nat) :
    List ProjectCredit :=
  let joined := credits.filter fun c =>
    c.user_id == user_id && projects.any fun p => c.project_id == p.id
  let project_credits := joined.flatMap fun c =>
    let matching := product_limits.filter fun pl =>
      pl.project_id == c.project_id && product_ids.contains pl.product_id
    if matching.isEmpty then
      [{ project_id := c.project_id, available_amount := c.amount,
         absolute_limit := false, product_id := none }]
    else
      matching.map fun pl =>
        { project_id := c.project_id, available_amount := c.amount,
          absolute_limit := pl.absolute_limit, product_id := some pl.product_id }
  List.insertionSort rankedBefore project_credits

/-! ## Allocation engine: the two per-line credit loops of `CRUDOrder.create` -/

/-- Result of one `for credit in project_credits:` loop (and of one whole
line): the source list with working balances mutated, the transactions
appended by the loop, and the running `amount_covered`. -/
structure PassResult where
  credits : List ProjectCredit
  txs : List Transaction
  covered : ℚ
deriving DecidableEq, Repr

/-- One `for credit in project_credits:` loop of `CRUDOrder.create`:
`if amount_covered >= amount_needed: break`; sources failing `pred` (the
scoped test `credit.product_id == line.product.id`, resp. the unscoped test
`credit.product_id is None`) are skipped; otherwise draw
`available = min(credit.available_amount, amount_needed - amount_covered)` and,
`if available > 0`, append `Transaction(credit_id=credit.project_id,
order_id=db_order.id, amount=available)`, add to `amount_covered` and decrement
the working balance. -/
def allocPass (pred : ProjectCredit → Bool) (order_id : Nat) (amount_needed : ℚ) :
    List ProjectCredit → ℚ → PassResult
  | [], amount_covered => ⟨[], [], amount_covered⟩
  | credit :: rest, amount_covered =>
    if amount_needed ≤ amount_covered then ⟨credit :: rest, [], amount_covered⟩
    else if pred credit then
      let available := min credit.available_amount (amount_needed - amount_covered)
      if 0 < available then
        let r := allocPass pred order_id amount_needed rest (amount_covered + available)
        ⟨{ credit with available_amount := credit.available_amount - available } :: r.credits,
         { credit_id := credit.project_id, order_id := order_id, amount := available } :: r.txs,
         r.covered⟩
      else
        let r := allocPass pred order_id amount_needed rest amount_covered
        ⟨credit :: r.credits, r.txs, r.covered⟩
    else
      let r := allocPass pred order_id amount_needed rest amount_covered
      ⟨credit :: r.credits, r.txs, r.covered⟩

/-- Scoped-pass test: Python `credit.product_id == line.product.id` (false for
an unscoped source, whose `product_id` is `None`). -/
def scopedTo (product_id : Nat) (c : ProjectCredit) : Bool :=
  c.product_id == some product_id

/-- Unscoped-pass test: Python `credit.product_id is None`. -/
def unscoped (c : ProjectCredit) : Bool :=
  c.product_id == none

/-- Funding of one order line in `CRUDOrder.create`: the scoped loop starting
from `amount_covered = 0`, then — only `if amount_covered < amount_needed` —
the unscoped loop continuing from the mutated list and running total. -/
def allocLine (project_credits : List ProjectCredit) (order_id product_id : Nat)
    (amount_needed : ℚ) : PassResult :=
  let r1 := allocPass (scopedTo product_id) order_id amount_needed project_credits 0
  if r1.covered < amount_needed then
    let r2 := allocPass unscoped order_id amount_needed r1.credits r1.covered
    ⟨r2.credits, r1.txs ++ r2.txs, r2.covered⟩
  else r1

/-- The `OrderLine` row built by `CRUDOrder.create` for a fully covered line:
every unit price is `line.product.price` (the price embedded in the request),
every line price is `amount_needed = line.product.price * line.quantity`. -/
def mkOrderLine (order_id : Nat) (line : BaseLineSchema) (amount_needed : ℚ) : OrderLine :=
  { order_id := order_id
    product_id := line.product.id
    quantity := line.quantity
    unit_price_excl_tax := line.product.price
    unit_price_incl_tax := line.product.price
    line_price_excl_tax := amount_needed
    line_price_incl_tax := amount_needed
    line_price_before_discounts_excl_tax := amount_needed
    line_price_before_discounts_incl_tax := amount_needed }

/-- The `for line in order.lines:` loop of `CRUDOrder.create`: each line is
funded by `allocLine` from the source list as mutated by the earlier lines; if
it is still short (`amount_covered < amount_needed`) the whole attempt raises
`InsufficientCredit`, otherwise its `OrderLine` row and transactions are
collected and the mutated list is carried to the next line. -/
def allocLines (order_id : Nat) :
    List BaseLineSchema → List ProjectCredit →
    Except CreateError (List ProjectCredit × List (OrderLine × List Transaction))
  | [], project_credits => .ok (project_credits, [])
  | line :: rest, project_credits =>
    let amount_needed := line.product.price * (line.quantity : ℚ)
    let r := allocLine project_credits order_id line.product.id amount_needed
    if r.covered < amount_needed then .error .insufficientCredit
    else
      match allocLines order_id rest r.credits with
      | .error e => .error e
      | .ok (credits', results) =>
        .ok (credits', (mkOrderLine order_id line amount_needed, r.txs) :: results)

/-- `CRUDOrder.create` (`src/api/order/service.py`): resolve the user's ranked
credit sources for the requested product ids, build the `INIT` order row, fund
every line, and on success commit the order row (totals accumulated from the
line totals), the order lines and the transactions.  `order_id` stands for the
`uuid4` primary key generated for `db_order`.  On `InsufficientCredit` the
session is rolled back: nothing of the attempt is persisted (`.error`).
The `credits` table is NOT among the tables written. -/
def CRUDOrder_create (db : DB) (user_id : Nat) (order : OrderCreateSchema)
    (order_id : Nat) : Except CreateError (DB × Order) :=
  let product_ids := order.lines.map fun line => line.product.id
  let project_credits :=
    get_user_project_credits db.credits db.projects db.product_limits user_id product_ids
  match allocLines order_id order.lines project_credits with
  | .error e => .error e
  | .ok (_, results) =>
    let order_lines := results.map Prod.fst
    let transactions := (results.map Prod.snd).flatten
    let total := (order_lines.map fun l => l.line_price_excl_tax).sum
    let db_order : Order :=
      { id := order_id, user_id := user_id, guest_email := order.guest_email,
        total_excl_tax := total, total_incl_tax := total, status := .INIT }
    .ok ({ db with
            orders := db.orders ++ [db_order]
            order_lines := db.order_lines ++ order_lines
            transactions := db.transactions ++ transactions }, db_order)

/-- The durable state after one checkout attempt: the committed new state on
success, the unchanged state after `db_session.rollback()` on error. -/
def createCommit (db : DB) (user_id : Nat) (order : OrderCreateSchema)
    (order_id : Nat) : DB :=
  match CRUDOrder_create db user_id order order_id with
  | .error _ => db
  | .ok (db', _) => db'

/-- Whether every line of a request can be fully covered, re-tracing the
engine line by line (used to state when `create` raises). -/
def linesCoverable (order_id : Nat) : List BaseLineSchema → List ProjectCredit → Bool
  | [], _ => true
  | line :: rest, project_credits =>
    let amount_needed := line.product.price * (line.quantity : ℚ)
    let r := allocLine project_credits order_id line.product.id amount_needed
    if r.covered < amount_needed then false
    else linesCoverable order_id rest r.credits

/-! ## Engine invariants -/

/-- How one source evolves across allocation steps: identification fields are
preserved, the working balance only decreases, and it stays non-negative if it
started non-negative. -/
def srcStep (c c' : ProjectCredit) : Prop :=
  c'.project_id = c.project_id ∧ c'.product_id = c.product_id ∧
    c'.absolute_limit = c.absolute_limit ∧ c'.available_amount ≤ c.available_amount ∧
    (0 ≤ c.available_amount → 0 ≤ c'.available_amount)

/-! ## Concrete fixtures used by witnesses and counterexamples -/

/-- C3 fixture: user 5 holds credit 500.00 in project 1, which carries an
absolute limit row for product 11, and credit 1000.00 in project 2 with no
limit rows — so the resolver yields a source of 500.00 scoped to product 11
with the absolute-limit flag, and an unscoped source of 1000.00. -/
def dbTwoProjects : DB :=
  { products := [{ id := 11, price := 150, is_active := true }]
    projects := [⟨1⟩, ⟨2⟩]
    credits := [⟨101, 5, 1, 500⟩, ⟨102, 5, 2, 1000⟩]
    product_limits := [⟨201, 1, 11, 500, true⟩]
    orders := [], order_lines := [], transactions := [] }

/-- C3 fixture: a cart of 4 × product 11 at unit price 150.00. -/
def reqFourP : OrderCreateSchema :=
  { guest_email := none
    lines := [{ quantity := 4, product := { id := 11, price := 150, is_active := true } }] }

/-- User 5 with a single unscoped credit of 1000.00 (credit row id 7 ≠ its
project id 1). -/
def dbOneCredit : DB :=
  { products := [{ id := 3, price := 9999/100, is_active := true }]
    projects := [⟨1⟩]
    credits := [⟨7, 5, 1, 1000⟩]
    product_limits := [], orders := [], order_lines := [], transactions := [] }

/-- A cart of 2 × product 3 at unit price 99.99 (line total 199.98). -/
def reqTwoAt9999 : OrderCreateSchema :=
  { guest_email := none
    lines := [{ quantity := 2, product := { id := 3, price := 9999/100, is_active := true } }] }

/-- User 5 with total available credit 999.00 across all sources. -/
def dbSmallCredit : DB :=
  { dbOneCredit with credits := [⟨7, 5, 1, 999⟩] }

/-- A single line costing 2000.00. -/
def reqAt2000 : OrderCreateSchema :=
  { guest_email := none
    lines := [{ quantity := 1, product := { id := 3, price := 2000, is_active := true } }] }

/-- A ledger with no credit rows at all. -/
def dbEmptyLedger : DB :=
  { products := [], projects := [], credits := [], product_limits := []
    orders := [], order_lines := [], transactions := [] }

/-- A request line with a (schema-accepted) negative unit price. -/
def reqNegPrice : OrderCreateSchema :=
  { guest_email := none
    lines := [{ quantity := 1, product := { id := 3, price := -5, is_active := true } }] }

/-- Catalogue in which product 3 exists but is inactive; user 5 has ample
credit. -/
def dbInactiveProduct : DB :=
  { dbOneCredit with products := [{ id := 3, price := 10, is_active := false }] }

/-- A request for the inactive product 3. -/
def reqInactive : OrderCreateSchema :=
  { guest_email := none
    lines := [{ quantity := 1, product := { id := 3, price := 10, is_active := false } }] }

/-- Catalogue price of product 3 is 10.00; user 5 has ample credit. -/
def dbCataloguePrice10 : DB :=
  { dbOneCredit with products := [{ id := 3, price := 10, is_active := true }] }

/-- A request for product 3 whose embedded product object claims price 1.00
(differing from the catalogue's 10.00). -/
def reqClientPrice1 : OrderCreateSchema :=
  { guest_email := none
    lines := [{ quantity := 1, product := { id := 3, price := 1, is_active := true } }] }

/-- The database state produced by the catalogue-price-10 / request-price-1
checkout. -/
def okDbClientPrice1 : DB :=
  { dbCataloguePrice10 with
    orders := [⟨9, 5, none, 1, 1, .INIT⟩]
    order_lines := [⟨9, 3, 1, 1, 1, 1, 1, 1, 1⟩]
    transactions := [⟨1, 9, 1, false⟩] }

/-- The order row produced by that checkout. -/
def okOrderClientPrice1 : Order := ⟨9, 5, none, 1, 1, .INIT⟩

/-- The database state produced by the 2 × 99.99 checkout of `dbOneCredit`. -/
def okDbOneCredit : DB :=
  { dbOneCredit with
    orders := [⟨9, 5, none, 9999/50, 9999/50, .INIT⟩]
    order_lines := [⟨9, 3, 2, 9999/50, 9999/50, 9999/50, 9999/50, 9999/100, 9999/100⟩]
    transactions := [⟨1, 9, 9999/50, false⟩] }

/-- The order row produced by that checkout. -/
def okOrderOneCredit : Order := ⟨9, 5, none, 9999/50, 9999/50, .INIT⟩

theorem srcStep_refl (c : ProjectCredit) : srcStep c c :=
  ⟨rfl, rfl, rfl, le_refl _, fun h => h⟩

theorem srcStep_trans {a b c : ProjectCredit} (h1 : srcStep a b) (h2 : srcStep b c) :
    srcStep a c := by
  obtain ⟨p1, q1, r1, s1, t1⟩ := h1
  obtain ⟨p2, q2, r2, s2, t2⟩ := h2
  exact ⟨p2.trans p1, q2.trans q1, r2.trans r1, s2.trans s1, fun h => t2 (t1 h)⟩

theorem forall₂_refl_of {α : Type} {r : α → α → Prop} (hr : ∀ a, r a a) :
    ∀ l : List α, List.Forall₂ r l l
  | [] => List.Forall₂.nil
  | a :: l => List.Forall₂.cons (hr a) (forall₂_refl_of hr l)

theorem forall₂_trans_of {α : Type} (r : α → α → Prop)
    (hr : ∀ a b c, r a b → r b c → r a c) :
    ∀ {l1 l2 l3 : List α}, List.Forall₂ r l1 l2 → List.Forall₂ r l2 l3 →
      List.Forall₂ r l1 l3
  | _, _, _, List.Forall₂.nil, List.Forall₂.nil => List.Forall₂.nil
  | _, _, _, List.Forall₂.cons h1 t1, List.Forall₂.cons h2 t2 =>
    List.Forall₂.cons (hr _ _ _ h1 h2) (forall₂_trans_of r hr t1 t2)

theorem forall₂_mem_right {α β : Type} {r : α → β → Prop} :
    ∀ {l1 : List α} {l2 : List β}, List.Forall₂ r l1 l2 →
      ∀ b ∈ l2, ∃ a ∈ l1, r a b
  | _, _, List.Forall₂.nil, b, hb => absurd hb (List.not_mem_nil b)
  | _, _, List.Forall₂.cons h t, b, hb => by
    rcases List.mem_cons.1 hb with rfl | hb
    · exact ⟨_, List.mem_cons_self _ _, h⟩
    · obtain ⟨a, ha, hr⟩ := forall₂_mem_right t b hb
      exact ⟨a, List.mem_cons_of_mem _ ha, hr⟩

theorem forall₂_srcStep_trans {l1 l2 l3 : List ProjectCredit}
    (h1 : List.Forall₂ srcStep l1 l2) (h2 : List.Forall₂ srcStep l2 l3) :
    List.Forall₂ srcStep l1 l3 :=
  forall₂_trans_of srcStep (fun _ _ _ ha hb => srcStep_trans ha hb) h1 h2

theorem forall₂_imp_left {α β : Type} {r s : α → β → Prop}
    (h : ∀ a, ∀ b, r a b → s a b) :
    ∀ {l1 : List α} {l2 : List β}, List.Forall₂ r l1 l2 → List.Forall₂ s l1 l2
  | _, _, List.Forall₂.nil => List.Forall₂.nil
  | _, _, List.Forall₂.cons h1 t1 => List.Forall₂.cons (h _ _ h1) (forall₂_imp_left h t1)

theorem forall₂_imp_mem {α β : Type} {r s : α → β → Prop} :
    ∀ {l1 : List α} {l2 : List β}, (∀ a ∈ l1, ∀ b, r a b → s a b) →
      List.Forall₂ r l1 l2 → List.Forall₂ s l1 l2
  | _, _, _, List.Forall₂.nil => List.Forall₂.nil
  | _, _, h, List.Forall₂.cons h1 t1 =>
    List.Forall₂.cons (h _ (List.mem_cons_self _ _) _ h1)
      (forall₂_imp_mem (fun a ha => h a (List.mem_cons_of_mem _ ha)) t1)

/-- Each pass mutates sources pointwise: same identity, balance only reduced,
non-negativity preserved. -/
theorem allocPass_credits (pred : ProjectCredit → Bool) (order_id : Nat)
    (amount_needed : ℚ) :
    ∀ (credits : List ProjectCredit) (amount_covered : ℚ),
      List.Forall₂ srcStep credits
        (allocPass pred order_id amount_needed credits amount_covered).credits
  | [], cov => by simp [allocPass]
  | credit :: rest, cov => by
    simp only [allocPass]
    split_ifs with hbrk hpred hpos
    · exact forall₂_refl_of srcStep_refl _
    · refine List.Forall₂.cons ?_ (allocPass_credits pred order_id amount_needed rest _)
      refine ⟨rfl, rfl, rfl, ?_, ?_⟩
      · have : (0:ℚ) ≤ min credit.available_amount (amount_needed - cov) := le_of_lt hpos
        simp only [ProjectCredit.mk.injEq]
        linarith
      · intro h0
        have hmin : min credit.available_amount (amount_needed - cov) ≤
            credit.available_amount := min_le_left _ _
        simp only []
        linarith
    · exact List.Forall₂.cons (srcStep_refl _)
        (allocPass_credits pred order_id amount_needed rest _)
    · exact List.Forall₂.cons (srcStep_refl _)
        (allocPass_credits pred order_id amount_needed rest _)

/-- The running total after a pass is the starting total plus the amounts of
the transactions the pass emitted. -/
theorem allocPass_covered_eq (pred : ProjectCredit → Bool) (order_id : Nat)
    (amount_needed : ℚ) :
    ∀ (credits : List ProjectCredit) (amount_covered : ℚ),
      (allocPass pred order_id amount_needed credits amount_covered).covered =
        amount_covered +
          (((allocPass pred order_id amount_needed credits amount_covered).txs.map
            Transaction.amount).sum)
  | [], cov => by simp [allocPass]
  | credit :: rest, cov => by
    simp only [allocPass]
    split_ifs with hbrk hpred hpos
    · simp
    · have ih := allocPass_covered_eq pred order_id amount_needed rest
        (cov + min credit.available_amount (amount_needed - cov))
      simp only [List.map_cons, List.sum_cons]
      rw [ih]; ring
    · exact allocPass_covered_eq pred order_id amount_needed rest cov
    · exact allocPass_covered_eq pred order_id amount_needed rest cov

/-- A pass never overshoots the needed amount. -/
theorem allocPass_covered_le (pred : ProjectCredit → Bool) (order_id : Nat)
    (amount_needed : ℚ) :
    ∀ (credits : List ProjectCredit) (amount_covered : ℚ),
      amount_covered ≤ amount_needed →
      (allocPass pred order_id amount_needed credits amount_covered).covered ≤
        amount_needed
  | [], cov, h => h
  | credit :: rest, cov, h => by
    simp only [allocPass]
    split_ifs with hbrk hpred hpos
    · exact h
    · refine allocPass_covered_le pred order_id amount_needed rest _ ?_
      have : min credit.available_amount (amount_needed - cov) ≤ amount_needed - cov :=
        min_le_right _ _
      linarith
    · exact allocPass_covered_le pred order_id amount_needed rest cov h
    · exact allocPass_covered_le pred order_id amount_needed rest cov h

/-- The running total never decreases during a pass. -/
theorem allocPass_covered_ge (pred : ProjectCredit → Bool) (order_id : Nat)
    (amount_needed : ℚ) :
    ∀ (credits : List ProjectCredit) (amount_covered : ℚ),
      amount_covered ≤
        (allocPass pred order_id amount_needed credits amount_covered).covered
  | [], cov => le_refl cov
  | credit :: rest, cov => by
    simp only [allocPass]
    split_ifs with hbrk hpred hpos
    · exact le_refl cov
    · have ih := allocPass_covered_ge pred order_id amount_needed rest
        (cov + min credit.available_amount (amount_needed - cov))
      have : (0:ℚ) < min credit.available_amount (amount_needed - cov) := hpos
      linarith
    · exact allocPass_covered_ge pred order_id amount_needed rest cov
    · exact allocPass_covered_ge pred order_id amount_needed rest cov

/-- Every transaction a pass emits is for a positive amount, carries the id of
the order being placed, and draws from a source of the list that satisfies the
pass predicate, for no more than that source's working balance. -/
theorem allocPass_txs (pred : ProjectCredit → Bool) (order_id : Nat)
    (amount_needed : ℚ) :
    ∀ (credits : List ProjectCredit) (amount_covered : ℚ),
      ∀ t ∈ (allocPass pred order_id amount_needed credits amount_covered).txs,
        0 < t.amount ∧ t.order_id = order_id ∧
          ∃ c ∈ credits, pred c = true ∧ t.credit_id = c.project_id ∧
            t.amount ≤ c.available_amount
  | [], cov, t, ht => absurd ht (List.not_mem_nil t)
  | credit :: rest, cov, t, ht => by
    simp only [allocPass] at ht
    split_ifs at ht with hbrk hpred hpos
    · exact absurd ht (List.not_mem_nil t)
    · rcases List.mem_cons.1 ht with rfl | ht
      · exact ⟨hpos, rfl,
          ⟨credit, List.mem_cons_self _ _, hpred, rfl, min_le_left _ _⟩⟩
      · obtain ⟨h1, h2, c, hc, h3⟩ :=
          allocPass_txs pred order_id amount_needed rest _ t ht
        exact ⟨h1, h2, c, List.mem_cons_of_mem _ hc, h3⟩
    · obtain ⟨h1, h2, c, hc, h3⟩ :=
        allocPass_txs pred order_id amount_needed rest cov t ht
      exact ⟨h1, h2, c, List.mem_cons_of_mem _ hc, h3⟩
    · obtain ⟨h1, h2, c, hc, h3⟩ :=
        allocPass_txs pred order_id amount_needed rest cov t ht
      exact ⟨h1, h2, c, List.mem_cons_of_mem _ hc, h3⟩


/-- Funding one line mutates sources pointwise: same identity, balance only
reduced, non-negativity preserved. -/
theorem allocLine_credits (project_credits : List ProjectCredit)
    (order_id product_id : Nat) (amount_needed : ℚ) :
    List.Forall₂ srcStep project_credits
      (allocLine project_credits order_id product_id amount_needed).credits := by
  simp only [allocLine]
  split_ifs
  · exact forall₂_srcStep_trans
      (allocPass_credits _ order_id amount_needed project_credits 0)
      (allocPass_credits _ order_id amount_needed _ _)
  · exact allocPass_credits _ order_id amount_needed project_credits 0

/-- The amount a line ends up covered by is exactly the sum of the amounts of
the transactions emitted for it. -/
theorem allocLine_covered_eq (project_credits : List ProjectCredit)
    (order_id product_id : Nat) (amount_needed : ℚ) :
    (allocLine project_credits order_id product_id amount_needed).covered =
      ((allocLine project_credits order_id product_id amount_needed).txs.map
        Transaction.amount).sum := by
  simp only [allocLine]
  have h1 := allocPass_covered_eq (scopedTo product_id) order_id amount_needed
    project_credits 0
  split_ifs with hlt
  · have h2 := allocPass_covered_eq unscoped order_id amount_needed
      (allocPass (scopedTo product_id) order_id amount_needed project_credits 0).credits
      (allocPass (scopedTo product_id) order_id amount_needed project_credits 0).covered
    simp only [List.map_append, List.sum_append]
    rw [h2, h1]; ring
  · rw [h1]; ring

/-- Funding a line never overshoots the needed amount (when that is
non-negative). -/
theorem allocLine_covered_le (project_credits : List ProjectCredit)
    (order_id product_id : Nat) (amount_needed : ℚ) (h : 0 ≤ amount_needed) :
    (allocLine project_credits order_id product_id amount_needed).covered ≤
      amount_needed := by
  simp only [allocLine]
  have h1 := allocPass_covered_le (scopedTo product_id) order_id amount_needed
    project_credits 0 h
  split_ifs with hlt
  · exact allocPass_covered_le unscoped order_id amount_needed _ _ h1
  · exact h1

/-- Every transaction a line emits is positive, tagged with the order id, and
drawn from one of the supplied sources — in particular its `credit_id` is the
`project_id` of one of them. -/
theorem allocLine_txs (project_credits : List ProjectCredit)
    (order_id product_id : Nat) (amount_needed : ℚ) :
    ∀ t ∈ (allocLine project_credits order_id product_id amount_needed).txs,
      0 < t.amount ∧ t.order_id = order_id ∧
        ∃ c ∈ project_credits, t.credit_id = c.project_id := by
  simp only [allocLine]
  split_ifs with hlt
  · intro t ht
    simp only [List.mem_append] at ht
    rcases ht with ht | ht
    · obtain ⟨h1, h2, c, hc, _, h3, _⟩ :=
        allocPass_txs (scopedTo product_id) order_id amount_needed project_credits 0 t ht
      exact ⟨h1, h2, c, hc, h3⟩
    · obtain ⟨h1, h2, c', hc', _, h3, _⟩ :=
        allocPass_txs unscoped order_id amount_needed _ _ t ht
      obtain ⟨c, hc, hstep⟩ := forall₂_mem_right
        (allocPass_credits (scopedTo product_id) order_id amount_needed
          project_credits 0) c' hc'
      exact ⟨h1, h2, c, hc, h3.trans hstep.1⟩
  · intro t ht
    obtain ⟨h1, h2, c, hc, _, h3, _⟩ :=
      allocPass_txs (scopedTo product_id) order_id amount_needed project_credits 0 t ht
    exact ⟨h1, h2, c, hc, h3⟩

/-- Shape of a successful run of the per-line loop over the whole cart:
sources are mutated pointwise (identity kept, balances only reduced,
non-negativity preserved); line by line, the created `OrderLine` row is the one
built from the request line, the emitted transactions sum exactly to the line
total whenever that is non-negative, and each transaction is positive, tagged
with the order id and drawn from one of the originally supplied sources. -/
theorem allocLines_ok_spec (order_id : Nat) :
    ∀ (lines : List BaseLineSchema) (project_credits cs' : List ProjectCredit)
      (results : List (OrderLine × List Transaction)),
      allocLines order_id lines project_credits = .ok (cs', results) →
      List.Forall₂ srcStep project_credits cs' ∧
      List.Forall₂ (fun line r =>
        r.1 = mkOrderLine order_id line (line.product.price * (line.quantity : ℚ)) ∧
        (0 ≤ line.product.price * (line.quantity : ℚ) →
          (r.2.map Transaction.amount).sum = line.product.price * (line.quantity : ℚ)) ∧
        ∀ t ∈ r.2, 0 < t.amount ∧ t.order_id = order_id ∧
          ∃ c ∈ project_credits, t.credit_id = c.project_id)
        lines results
  | [], cs, cs', results, h => by
    simp only [allocLines, Except.ok.injEq, Prod.mk.injEq] at h
    obtain ⟨rfl, rfl⟩ := h
    exact ⟨forall₂_refl_of srcStep_refl cs, List.Forall₂.nil⟩
  | line :: rest, cs, cs', results, h => by
    simp only [allocLines] at h
    split_ifs at h with hlt
    rcases hrec : allocLines order_id rest
        (allocLine cs order_id line.product.id
          (line.product.price * (line.quantity : ℚ))).credits
      with e | ⟨cs'', results'⟩
    · rw [hrec] at h; exact absurd h (by simp)
    · rw [hrec] at h
      simp only [Except.ok.injEq, Prod.mk.injEq] at h
      obtain ⟨rfl, rfl⟩ := h
      obtain ⟨hstep, hforall⟩ := allocLines_ok_spec order_id rest _ _ _ hrec
      have hline_step := allocLine_credits cs order_id line.product.id
        (line.product.price * (line.quantity : ℚ))
      refine ⟨forall₂_srcStep_trans hline_step hstep, ?_⟩
      refine List.Forall₂.cons ⟨rfl, ?_, ?_⟩ ?_
      · intro hpos
        have hle := allocLine_covered_le cs order_id line.product.id
          (line.product.price * (line.quantity : ℚ)) hpos
        have hge : line.product.price * (line.quantity : ℚ) ≤
            (allocLine cs order_id line.product.id
              (line.product.price * (line.quantity : ℚ))).covered := not_lt.1 hlt
        have hcov := allocLine_covered_eq cs order_id line.product.id
          (line.product.price * (line.quantity : ℚ))
        rw [← hcov]
        exact le_antisymm hle hge
      · exact allocLine_txs cs order_id line.product.id
          (line.product.price * (line.quantity : ℚ))
      · refine forall₂_imp_left ?_ hforall
        rintro l p ⟨hp1, hp2, hp3⟩
        refine ⟨hp1, hp2, ?_⟩
        intro t ht
        obtain ⟨h1, h2, c', hc', h3⟩ := hp3 t ht
        obtain ⟨c, hc, hstep'⟩ := forall₂_mem_right hline_step c' hc'
        exact ⟨h1, h2, c, hc, h3.trans hstep'.1⟩

/-- If some line is not fully coverable, the loop raises `InsufficientCredit`. -/
theorem allocLines_error_of_not_coverable (order_id : Nat) :
    ∀ (lines : List BaseLineSchema) (project_credits : List ProjectCredit),
      linesCoverable order_id lines project_credits = false →
      allocLines order_id lines project_credits = .error .insufficientCredit
  | [], cs, h => by simp [linesCoverable] at h
  | line :: rest, cs, h => by
    simp only [linesCoverable] at h
    simp only [allocLines]
    split_ifs at h ⊢ with hlt
    · rfl
    · rw [allocLines_error_of_not_coverable order_id rest _ h]

/-- If every line is coverable, the loop succeeds. -/
theorem allocLines_ok_of_coverable (order_id : Nat) :
    ∀ (lines : List BaseLineSchema) (project_credits : List ProjectCredit),
      linesCoverable order_id lines project_credits = true →
      ∃ res, allocLines order_id lines project_credits = .ok res
  | [], cs, _ => ⟨(cs, []), rfl⟩
  | line :: rest, cs, h => by
    simp only [linesCoverable] at h
    simp only [allocLines]
    split_ifs at h ⊢ with hlt
    · obtain ⟨⟨cs'', results'⟩, hres⟩ :=
        allocLines_ok_of_coverable order_id rest _ h
      rw [hres]
      exact ⟨_, rfl⟩

/-- Every ranked source returned by the resolver comes from one of the user's
credit rows: its `project_id` and `available_amount` are that row's
`project_id` and `amount`. -/
theorem get_user_project_credits_mem (credits : List Credit)
    (projects : List Project) (product_limits : List ProductLimit)
    (user_id : Nat) (product_ids : List Nat) :
    ∀ pc ∈ get_user_project_credits credits projects product_limits user_id product_ids,
      ∃ c ∈ credits, c.user_id = user_id ∧ pc.project_id = c.project_id ∧
        pc.available_amount = c.amount := by
  intro pc hpc
  simp only [get_user_project_credits] at hpc
  rw [List.mem_insertionSort] at hpc
  obtain ⟨c, hc, hrow⟩ := List.mem_flatMap.1 hpc
  obtain ⟨hcmem, hfilt⟩ := List.mem_filter.1 hc
  simp only [Bool.and_eq_true, beq_iff_eq] at hfilt
  refine ⟨c, hcmem, hfilt.1, ?_⟩
  split_ifs at hrow with hempty
  · simp only [List.mem_singleton] at hrow
    subst hrow; exact ⟨rfl, rfl⟩
  · obtain ⟨pl, _, hpl⟩ := List.mem_map.1 hrow
    subst hpl; exact ⟨rfl, rfl⟩

/-! ## The claims -/

/-- **C7** (confirmed).  Resolver ordering: for every user and requested
product set, `get_user_project_credits` returns a list in which every
absolute-limit source precedes every non-absolute-limit source, and within
each of the two groups a source with larger `available_amount` precedes one
with smaller. -/
theorem C7_resolver_ordering (credits : List Credit) (projects : List Project)
    (product_limits : List ProductLimit) (user_id : Nat) (product_ids : List Nat) :
    List.Pairwise (fun a b =>
      (b.absolute_limit = true → a.absolute_limit = true) ∧
      (a.absolute_limit = b.absolute_limit → b.available_amount ≤ a.available_amount))
      (get_user_project_credits credits projects product_limits user_id product_ids) := by
  simp only [get_user_project_credits]
  refine List.Pairwise.imp ?_ (List.sorted_insertionSort rankedBefore _)
  intro a b hab
  rcases hab with ⟨h1, h2⟩ | ⟨h1, h2⟩
  · exact ⟨fun hb => by simp [hb] at h1, fun hab => by simp [h2, h1] at hab⟩
  · exact ⟨fun hb => h1 ▸ hb, fun _ => h2⟩

/-- **C5** (confirmed, reading "credit source" as one resolver row, which is
the unit the engine draws from).  Non-negativity: if every source starts with
a non-negative working balance, then (a) after funding any single line — the
only mutation step of an attempt, successful or failed — every balance is
still non-negative, and (b) over any whole successful attempt, each source
row's final balance is non-negative and the total drawn from it
(initial − final) never exceeds its initial balance. -/
theorem C5_nonnegativity (project_credits : List ProjectCredit)
    (order_id product_id : Nat) (amount_needed : ℚ)
    (h : ∀ c ∈ project_credits, 0 ≤ c.available_amount) :
    (∀ c' ∈ (allocLine project_credits order_id product_id amount_needed).credits,
        0 ≤ c'.available_amount) ∧
    ∀ (lines : List BaseLineSchema) (cs' : List ProjectCredit)
      (results : List (OrderLine × List Transaction)),
      allocLines order_id lines project_credits = .ok (cs', results) →
      List.Forall₂ (fun c c' => 0 ≤ c'.available_amount ∧
          c.available_amount - c'.available_amount ≤ c.available_amount)
        project_credits cs' := by
  constructor
  · intro c' hc'
    obtain ⟨c, hc, hstep⟩ := forall₂_mem_right
      (allocLine_credits project_credits order_id product_id amount_needed) c' hc'
    exact hstep.2.2.2.2 (h c hc)
  · intro lines cs' results hres
    have hstep := (allocLines_ok_spec order_id lines project_credits cs' results hres).1
    refine forall₂_imp_mem ?_ hstep
    intro c hc c' hstep'
    have h0 := hstep'.2.2.2.2 (h c hc)
    exact ⟨h0, by linarith⟩

/-- **C5 witness**: for the scoped-500/unscoped-1000 sources and the 4×150.00
cart, the whole attempt leaves balances 0 and 900 — non-negative, with draws
500 and 100 not exceeding the initial balances. -/
theorem C5_witness :
    List.Forall₂ (fun c c' => 0 ≤ c'.available_amount ∧
        c.available_amount - c'.available_amount ≤ c.available_amount)
      ([⟨1, 500, true, some 11⟩, ⟨2, 1000, false, none⟩] : List ProjectCredit)
      ([⟨1, 0, true, some 11⟩, ⟨2, 900, false, none⟩] : List ProjectCredit) :=
  (C5_nonnegativity [⟨1, 500, true, some 11⟩, ⟨2, 1000, false, none⟩] 77 11 600
    (by norm_num)).2 reqFourP.lines
    [⟨1, 0, true, some 11⟩, ⟨2, 900, false, none⟩]
    [(mkOrderLine 77 ⟨4, ⟨11, 150, true⟩⟩ 600, [⟨1, 77, 500, false⟩, ⟨2, 77, 100, false⟩])]
    (by norm_num [reqFourP, allocLines, allocLine, allocPass, scopedTo, unscoped,
      mkOrderLine])

/-- **C6** (confirmed).  Per-line two-pass greedy allocation: (i) the first
pass draws only from sources scoped to the line's product, emitting a
transaction only for a positive draw bounded by the source's working balance;
(ii) if the scoped pass already covers the line, the unscoped pass is not
entered; (iii) on a shortfall the line's transactions are the scoped pass's
followed by the unscoped pass's over the mutated list, the latter drawing only
from unscoped sources; (iv) the lines of a cart are processed in order,
carrying the mutated source list forward to the next line. -/
theorem C6_two_pass (project_credits : List ProjectCredit)
    (order_id product_id : Nat) (amount_needed : ℚ) :
    (∀ t ∈ (allocPass (scopedTo product_id) order_id amount_needed
        project_credits 0).txs,
      0 < t.amount ∧ ∃ c ∈ project_credits, c.product_id = some product_id ∧
        t.credit_id = c.project_id ∧ t.amount ≤ c.available_amount) ∧
    (amount_needed ≤ (allocPass (scopedTo product_id) order_id amount_needed
        project_credits 0).covered →
      allocLine project_credits order_id product_id amount_needed =
        allocPass (scopedTo product_id) order_id amount_needed project_credits 0) ∧
    ((allocPass (scopedTo product_id) order_id amount_needed
        project_credits 0).covered < amount_needed →
      (allocLine project_credits order_id product_id amount_needed).txs =
        (allocPass (scopedTo product_id) order_id amount_needed
          project_credits 0).txs ++
        (allocPass unscoped order_id amount_needed
          (allocPass (scopedTo product_id) order_id amount_needed
            project_credits 0).credits
          (allocPass (scopedTo product_id) order_id amount_needed
            project_credits 0).covered).txs ∧
      ∀ t ∈ (allocPass unscoped order_id amount_needed
          (allocPass (scopedTo product_id) order_id amount_needed
            project_credits 0).credits
          (allocPass (scopedTo product_id) order_id amount_needed
            project_credits 0).covered).txs,
        0 < t.amount ∧
          ∃ c ∈ (allocPass (scopedTo product_id) order_id amount_needed
            project_credits 0).credits,
            c.product_id = none ∧ t.credit_id = c.project_id ∧
              t.amount ≤ c.available_amount) ∧
    ∀ (line : BaseLineSchema) (rest : List BaseLineSchema),
      allocLines order_id (line :: rest) project_credits =
        (if (allocLine project_credits order_id line.product.id
              (line.product.price * (line.quantity : ℚ))).covered <
            line.product.price * (line.quantity : ℚ) then
          .error .insufficientCredit
        else
          match allocLines order_id rest
              (allocLine project_credits order_id line.product.id
                (line.product.price * (line.quantity : ℚ))).credits with
          | .error e => .error e
          | .ok (credits', results) =>
            .ok (credits', (mkOrderLine order_id line
                (line.product.price * (line.quantity : ℚ)),
              (allocLine project_credits order_id line.product.id
                (line.product.price * (line.quantity : ℚ))).txs) :: results)) := by
  refine ⟨?_, ?_, ?_, ?_⟩
  · intro t ht
    obtain ⟨h1, h2, c, hc, hpred, h3, h4⟩ :=
      allocPass_txs (scopedTo product_id) order_id amount_needed project_credits 0 t ht
    simp only [scopedTo, beq_iff_eq] at hpred
    exact ⟨h1, c, hc, hpred, h3, h4⟩
  · intro hge
    simp only [allocLine]
    rw [if_neg (not_lt.2 hge)]
  · intro hlt
    refine ⟨?_, ?_⟩
    · simp only [allocLine]
      rw [if_pos hlt]
    · intro t ht
      obtain ⟨h1, h2, c, hc, hpred, h3, h4⟩ :=
        allocPass_txs unscoped order_id amount_needed _ _ t ht
      simp only [unscoped, beq_iff_eq] at hpred
      exact ⟨h1, c, hc, hpred, h3, h4⟩
  · intro line rest
    simp only [allocLines]

/-- **C6 witness**: with the scoped-500/unscoped-1000 sources and a 600.00
line for product 11, the scoped pass leaves a shortfall, and the line's
transactions are the scoped pass's 500.00 draw followed by the unscoped
pass's 100.00 draw. -/
theorem C6_witness :
    (allocLine [⟨1, 500, true, some 11⟩, ⟨2, 1000, false, none⟩] 77 11 600).txs =
      [⟨1, 77, 500, false⟩, ⟨2, 77, 100, false⟩] := by
  have h := (C6_two_pass [⟨1, 500, true, some 11⟩, ⟨2, 1000, false, none⟩]
      77 11 600).2.2.1 (by norm_num [allocPass, scopedTo])
  rw [h.1]
  norm_num [allocPass, scopedTo, unscoped]

/-- **C1 counterexample**.  The claim fails as stated: the schemas accept a
negative unit price (pydantic constrains only the digit count of
`price: Decimal` and leaves `quantity: int` unbounded), and for the line
1 × (−5.00) the allocation loop breaks immediately (`amount_covered = 0 ≥
amount_needed = −5`), so order creation succeeds — even with no credit at
all — storing a line with `line_total = −5.00` but emitting zero funding
transactions, whose amounts therefore sum to 0 ≠ −5.00. -/
theorem C1_counterexample :
    (CRUDOrder_create dbEmptyLedger 5 reqNegPrice 9).isOk = true ∧
    (createCommit dbEmptyLedger 5 reqNegPrice 9).order_lines.map
      OrderLine.line_price_excl_tax = [-5] ∧
    (createCommit dbEmptyLedger 5 reqNegPrice 9).transactions = [] ∧
    ((0 : ℚ) = -5 → False) := by
  norm_num [CRUDOrder_create, createCommit, dbEmptyLedger, reqNegPrice,
    get_user_project_credits, allocLines, allocLine, allocPass, scopedTo, unscoped,
    mkOrderLine, List.insertionSort, Except.isOk, Except.toBool]

/-- **C1** (corrected).  Coverage invariant, restricted as the counterexample
forces: for every successful run of the per-line funding loop, every created
line *whose line total is non-negative* has funding transactions summing
exactly to its `line_total`, and `line_total` is `unit_price * quantity`
computed once.  (A line with negative line total — expressible because the
request schema does not constrain sign — is accepted with zero
transactions.) -/
theorem C1_line_totals (order_id : Nat) (lines : List BaseLineSchema)
    (project_credits cs' : List ProjectCredit)
    (results : List (OrderLine × List Transaction))
    (h : allocLines order_id lines project_credits = .ok (cs', results)) :
    ∀ r ∈ results, 0 ≤ r.1.line_price_excl_tax →
      (r.2.map Transaction.amount).sum = r.1.line_price_excl_tax ∧
      r.1.line_price_excl_tax = r.1.unit_price_excl_tax * (r.1.quantity : ℚ) := by
  intro r hr hpos
  have hforall := (allocLines_ok_spec order_id lines project_credits cs' results h).2
  obtain ⟨line, hline, h1, h2, h3⟩ := forall₂_mem_right hforall r hr
  have hneeded : r.1.line_price_excl_tax = line.product.price * (line.quantity : ℚ) := by
    rw [h1]; rfl
  constructor
  · rw [hneeded] at hpos ⊢
    exact h2 hpos
  · rw [h1]
    simp only [mkOrderLine]

/-- **C1 witness**: for the 4 × 150.00 line funded 500.00 + 100.00, the
transaction amounts sum to the line total 600.00 = 150.00 × 4. -/
theorem C1_witness :
    (((([⟨1, 77, 500, false⟩, ⟨2, 77, 100, false⟩]) : List Transaction).map
      Transaction.amount).sum =
        (mkOrderLine 77 ⟨4, ⟨11, 150, true⟩⟩ 600).line_price_excl_tax) ∧
    (mkOrderLine 77 ⟨4, ⟨11, 150, true⟩⟩ 600).line_price_excl_tax =
      (mkOrderLine 77 ⟨4, ⟨11, 150, true⟩⟩ 600).unit_price_excl_tax *
        (((mkOrderLine 77 ⟨4, ⟨11, 150, true⟩⟩ 600).quantity : ℤ) : ℚ) :=
  C1_line_totals 77 reqFourP.lines
    [⟨1, 500, true, some 11⟩, ⟨2, 1000, false, none⟩]
    [⟨1, 0, true, some 11⟩, ⟨2, 900, false, none⟩]
    [(mkOrderLine 77 ⟨4, ⟨11, 150, true⟩⟩ 600, [⟨1, 77, 500, false⟩, ⟨2, 77, 100, false⟩])]
    (by norm_num [reqFourP, allocLines, allocLine, allocPass, scopedTo, unscoped,
      mkOrderLine])
    (mkOrderLine 77 ⟨4, ⟨11, 150, true⟩⟩ 600, [⟨1, 77, 500, false⟩, ⟨2, 77, 100, false⟩])
    (by simp)
    (by norm_num [mkOrderLine])

/-- **C2** (confirmed).  All-or-nothing failure: whenever some line of the
request cannot be fully covered after both passes, `CRUDOrder.create` raises
`InsufficientCredit` (the session having been rolled back), and the durable
state is exactly the state before the attempt — no order row, no order line
and no transaction of any line of the attempt is persisted. -/
theorem C2_all_or_nothing (db : DB) (user_id : Nat) (order : OrderCreateSchema)
    (order_id : Nat)
    (h : linesCoverable order_id order.lines
      (get_user_project_credits db.credits db.projects db.product_limits user_id
        (order.lines.map fun line => line.product.id)) = false) :
    CRUDOrder_create db user_id order order_id = .error .insufficientCredit ∧
    createCommit db user_id order order_id = db := by
  have herr := allocLines_error_of_not_coverable order_id order.lines _ h
  constructor
  · simp only [CRUDOrder_create]
    rw [herr]
  · simp only [createCommit, CRUDOrder_create]
    rw [herr]

/-- **C2 witness**: a user with total available credit 999.00 ordering a
single 2000.00 line gets `InsufficientCredit` and the database is unchanged. -/
theorem C2_witness :
    CRUDOrder_create dbSmallCredit 5 reqAt2000 9 = .error .insufficientCredit ∧
    createCommit dbSmallCredit 5 reqAt2000 9 = dbSmallCredit :=
  C2_all_or_nothing dbSmallCredit 5 reqAt2000 9
    (by norm_num [dbSmallCredit, dbOneCredit, reqAt2000, get_user_project_credits,
      List.insertionSort, List.orderedInsert, rankedBefore, linesCoverable, allocLine,
      allocPass, scopedTo, unscoped])

/-- **C3** (confirmed).  Scenario: user 5's resolver output for product 11 is
a 500.00 source scoped to product 11 carrying the absolute-limit flag followed
by an unscoped 1000.00 source; a checkout of 4 × product 11 at 150.00
(line total 600.00) succeeds and persists exactly two funding transactions —
first 500.00 drawn from the scoped absolute-limit source (project 1), then
100.00 drawn from the unscoped source (project 2). -/
theorem C3_scenario :
    get_user_project_credits dbTwoProjects.credits dbTwoProjects.projects
      dbTwoProjects.product_limits 5 [11] =
      [⟨1, 500, true, some 11⟩, ⟨2, 1000, false, none⟩] ∧
    (CRUDOrder_create dbTwoProjects 5 reqFourP 77).isOk = true ∧
    (createCommit dbTwoProjects 5 reqFourP 77).transactions =
      [⟨1, 77, 500, false⟩, ⟨2, 77, 100, false⟩] := by
  refine ⟨?_, ?_, ?_⟩ <;>
    norm_num [createCommit, CRUDOrder_create, get_user_project_credits, dbTwoProjects,
      reqFourP, List.insertionSort, List.orderedInsert, rankedBefore, allocLines,
      allocLine, allocPass, scopedTo, unscoped, mkOrderLine, Except.isOk, Except.toBool]

/-- **C4** (code bug).  The claim — and §3/§6 of the spec — require the
commit to persist decremented `Credit.amount` balances, but `CRUDOrder.create`
decrements only the in-memory `ProjectCredit.available_amount` working copies
and never writes any `Credit` row: at the failing input below a 2 × 99.99
checkout against a 1000.00 credit commits a 199.98 transaction while the
stored `Credit.amount` remains 1000.00 (the claim requires 800.02). -/
theorem C4_balance_not_decremented :
    (CRUDOrder_create dbOneCredit 5 reqTwoAt9999 9).isOk = true ∧
    (createCommit dbOneCredit 5 reqTwoAt9999 9).transactions =
      [⟨1, 9, 9999/50, false⟩] ∧
    (createCommit dbOneCredit 5 reqTwoAt9999 9).credits = dbOneCredit.credits ∧
    dbOneCredit.credits.map Credit.amount = [1000] := by
  norm_num [createCommit, CRUDOrder_create, dbOneCredit, reqTwoAt9999,
    get_user_project_credits, List.insertionSort, List.orderedInsert, rankedBefore,
    allocLines, allocLine, allocPass, scopedTo, unscoped, mkOrderLine, Except.isOk,
    Except.toBool]

/-- **C8 counterexample**.  The claim fails as stated: the catalogue contains
product 3 only as inactive, the request orders exactly that product, and order
creation nevertheless succeeds — `CRUDOrder.create` performs no catalogue
lookup or `is_active` check, and no `ProductUnavailable` error exists in
`src/api/order/exceptions.py`. -/
theorem C8_counterexample :
    dbInactiveProduct.products.map Product.is_active = [false] ∧
    dbInactiveProduct.products.map Product.id = [3] ∧
    reqInactive.lines.map (fun l => l.product.id) = [3] ∧
    (CRUDOrder_create dbInactiveProduct 5 reqInactive 9).isOk = true := by
  norm_num [CRUDOrder_create, dbInactiveProduct, dbOneCredit, reqInactive,
    get_user_project_credits, List.insertionSort, List.orderedInsert, rankedBefore,
    allocLines, allocLine, allocPass, scopedTo, unscoped, mkOrderLine, Except.isOk,
    Except.toBool]

/-- **C8** (corrected).  Order creation performs no product-availability
precondition at all: for every database state and request — regardless of
whether the requested products are inactive or missing in the catalogue —
checkout succeeds whenever every line is coverable by credit.  (The only
allocation-time error `CRUDOrder.create` can raise is `InsufficientCredit`;
the theorem's hypothesis mentions credit coverage only, with no condition on
`db.products`.) -/
theorem C8_no_availability_check (db : DB) (user_id : Nat)
    (order : OrderCreateSchema) (order_id : Nat)
    (h : linesCoverable order_id order.lines
      (get_user_project_credits db.credits db.projects db.product_limits user_id
        (order.lines.map fun line => line.product.id)) = true) :
    (CRUDOrder_create db user_id order order_id).isOk = true := by
  obtain ⟨⟨cs', results⟩, hres⟩ := allocLines_ok_of_coverable order_id order.lines _ h
  simp only [CRUDOrder_create]
  rw [hres]
  rfl

/-- **C8 witness**: the inactive-product checkout is coverable and succeeds. -/
theorem C8_witness :
    (CRUDOrder_create dbInactiveProduct 5 reqInactive 9).isOk = true :=
  C8_no_availability_check dbInactiveProduct 5 reqInactive 9
    (by norm_num [dbInactiveProduct, dbOneCredit, reqInactive,
      get_user_project_credits, List.insertionSort, List.orderedInsert, rankedBefore,
      linesCoverable, allocLine, allocPass, scopedTo, unscoped])

/-- **C9 counterexample**.  The claim fails as stated: the catalogue lists
product 3 at price 10.00, yet a checkout whose request embeds product 3 with
price 1.00 succeeds and freezes `unit_price = 1.00` — the client-supplied
request value, not the catalogue's current price. -/
theorem C9_counterexample :
    dbCataloguePrice10.products.map Product.price = [10] ∧
    dbCataloguePrice10.products.map Product.id = [3] ∧
    reqClientPrice1.lines.map (fun l => l.product.id) = [3] ∧
    (CRUDOrder_create dbCataloguePrice10 5 reqClientPrice1 9).isOk = true ∧
    (createCommit dbCataloguePrice10 5 reqClientPrice1 9).order_lines.map
      OrderLine.unit_price_excl_tax = [1] ∧
    ((1 : ℚ) = 10 → False) := by
  norm_num [createCommit, CRUDOrder_create, dbCataloguePrice10, dbOneCredit,
    reqClientPrice1, get_user_project_credits, List.insertionSort, List.orderedInsert,
    rankedBefore, allocLines, allocLine, allocPass, scopedTo, unscoped, mkOrderLine,
    Except.isOk, Except.toBool]

/-- **C9** (corrected).  Price provenance as the code implements it: the
frozen `unit_price` of every line of a successfully created order is the
`price` field of the product object embedded in the client request (the
catalogue is never consulted), and the line totals are that price times the
requested quantity, computed once. -/
theorem C9_price_from_request (db : DB) (user_id : Nat)
    (order : OrderCreateSchema) (order_id : Nat) (db' : DB) (o : Order)
    (h : CRUDOrder_create db user_id order order_id = .ok (db', o)) :
    List.Forall₂ (fun line l =>
      l.unit_price_excl_tax = line.product.price ∧
      l.unit_price_incl_tax = line.product.price ∧
      l.line_price_excl_tax = line.product.price * (line.quantity : ℚ) ∧
      l.line_price_incl_tax = line.product.price * (line.quantity : ℚ) ∧
      l.product_id = line.product.id ∧ l.quantity = line.quantity)
      order.lines (db'.order_lines.drop db.order_lines.length) := by
  simp only [CRUDOrder_create] at h
  rcases hres : allocLines order_id order.lines
      (get_user_project_credits db.credits db.projects db.product_limits user_id
        (order.lines.map fun line => line.product.id)) with e | ⟨cs', results⟩
  · rw [hres] at h; exact absurd h (by simp)
  · rw [hres] at h
    simp only [Except.ok.injEq, Prod.mk.injEq] at h
    obtain ⟨h1, h2⟩ := h
    subst h1
    dsimp only
    rw [List.drop_left]
    have hforall := (allocLines_ok_spec order_id order.lines _ _ _ hres).2
    rw [List.forall₂_map_right_iff]
    refine forall₂_imp_left ?_ hforall
    rintro line r ⟨h1, _, _⟩
    rw [h1]
    simp [mkOrderLine]

/-- **C9 witness**: for the concrete request embedding price 1.00, the stored
line carries exactly the request's price data. -/
theorem C9_witness :
    List.Forall₂ (fun line l =>
      l.unit_price_excl_tax = line.product.price ∧
      l.unit_price_incl_tax = line.product.price ∧
      l.line_price_excl_tax = line.product.price * (line.quantity : ℚ) ∧
      l.line_price_incl_tax = line.product.price * (line.quantity : ℚ) ∧
      l.product_id = line.product.id ∧ l.quantity = line.quantity)
      reqClientPrice1.lines
      (okDbClientPrice1.order_lines.drop dbCataloguePrice10.order_lines.length) :=
  C9_price_from_request dbCataloguePrice10 5 reqClientPrice1 9 okDbClientPrice1
    okOrderClientPrice1
    (by norm_num [CRUDOrder_create, dbCataloguePrice10, dbOneCredit, reqClientPrice1,
      okDbClientPrice1, okOrderClientPrice1, get_user_project_credits,
      List.insertionSort, List.orderedInsert, rankedBefore, allocLines, allocLine,
      allocPass, scopedTo, unscoped, mkOrderLine])

/-- **C10** (confirmed).  Transaction attribution: every transaction persisted
by a successful order creation (beyond those already stored) carries the id of
the created order, and its `credit_id` is the `project_id` of the credit
source it was drawn from — the resolver copies `credit.project_id` (not the
`Credit` row's own primary key, which the `Transaction.credit_id` foreign key
nominally references) into `ProjectCredit.project_id`, and the engine stores
that value. -/
theorem C10_transaction_attribution (db : DB) (user_id : Nat)
    (order : OrderCreateSchema) (order_id : Nat) (db' : DB) (o : Order)
    (h : CRUDOrder_create db user_id order order_id = .ok (db', o)) :
    ∀ t ∈ db'.transactions, t ∈ db.transactions ∨
      (t.order_id = o.id ∧ ∃ c ∈ db.credits, c.user_id = user_id ∧
        t.credit_id = c.project_id) := by
  simp only [CRUDOrder_create] at h
  rcases hres : allocLines order_id order.lines
      (get_user_project_credits db.credits db.projects db.product_limits user_id
        (order.lines.map fun line => line.product.id)) with e | ⟨cs', results⟩
  · rw [hres] at h; exact absurd h (by simp)
  · rw [hres] at h
    simp only [Except.ok.injEq, Prod.mk.injEq] at h
    obtain ⟨h1, h2⟩ := h
    subst h1; subst h2
    intro t ht
    rcases List.mem_append.1 ht with ht | ht
    · exact Or.inl ht
    · right
      obtain ⟨ts, hts, htmem⟩ := List.mem_flatten.1 ht
      obtain ⟨r, hr, hrts⟩ := List.mem_map.1 hts
      subst hrts
      have hforall := (allocLines_ok_spec order_id order.lines _ _ _ hres).2
      obtain ⟨line, hline, _, _, h3⟩ := forall₂_mem_right hforall r hr
      obtain ⟨hpos, horder, pc, hpc, hcred⟩ := h3 t htmem
      refine ⟨horder, ?_⟩
      obtain ⟨c, hc, hcuser, hproj, _⟩ :=
        get_user_project_credits_mem db.credits db.projects db.product_limits
          user_id _ pc hpc
      exact ⟨c, hc, hcuser, hcred.trans hproj⟩

/-- **C10 witness**: the persisted transaction of the 2 × 99.99 checkout has
the new order's id, and its `credit_id` 1 is the `project_id` of the user's
credit row — whose own primary key is 7, not 1. -/
theorem C10_witness :
    (⟨1, 9, 9999/50, false⟩ : Transaction) ∈ dbOneCredit.transactions ∨
      ((⟨1, 9, 9999/50, false⟩ : Transaction).order_id = okOrderOneCredit.id ∧
        ∃ c ∈ dbOneCredit.credits, c.user_id = 5 ∧
          (⟨1, 9, 9999/50, false⟩ : Transaction).credit_id = c.project_id) :=
  C10_transaction_attribution dbOneCredit 5 reqTwoAt9999 9 okDbOneCredit
    okOrderOneCredit
    (by norm_num [CRUDOrder_create, dbOneCredit, reqTwoAt9999, okDbOneCredit,
      okOrderOneCredit, get_user_project_credits, List.insertionSort,
      List.orderedInsert, rankedBefore, allocLines, allocLine, allocPass, scopedTo,
      unscoped, mkOrderLine])
    ⟨1, 9, 9999/50, false⟩
    (by norm_num [okDbOneCredit, dbOneCredit])
